import Mathlib

/-!
Shallow embedding of the high-availability lamp state layer of the
`python-lamp-web-app` repository:

* `src/services/cache.py`   — `LampCacheService` (in-memory state cache)
* `src/database/repository.py` — `LampRepository` (durable Postgres store;
  its SQL statements are modelled as operations on in-memory tables)
* `src/database/ha_repository.py` — `HALampRepository` (facade with fallback)
* `src/services/sync.py`    — `DatabaseSyncService` (background reconciliation)

Modelling conventions, used consistently below:

* A Python `datetime` is modelled by `DateTimeM`: `day` abstracts the calendar
  date `ts.date()` (one natural number per date; the dict keys
  `date.isoformat()` are in bijection with dates, so the `day` number is used
  directly as key), `epochMs` abstracts `int(ts.timestamp() * 1000)`.
* Python dicts keyed by ISO date strings become association lists keyed by
  the `day` number; Python sets of session ids become duplicate-free lists.
* Counters (Python non-negative ints) are `Nat`.
* Exception-raising store calls are modelled by an explicit outcome value
  supplied to each operation (`DbConn` / `SyncProbe`); an `except:` block that
  swallows the error becomes the corresponding `match` branch.
-/

/-- Model of a Python `datetime`: `day` abstracts `.date()`, `epochMs`
abstracts `int(ts.timestamp() * 1000)`. -/
structure DateTimeM where
  day : Nat
  epochMs : Nat
  deriving DecidableEq, Repr

/-- Python truthiness of `session_id or "unknown"` for an `Optional[str]`:
both `None` and the empty string are falsy. -/
def pyOrUnknown : Option String → String
  | none => "unknown"
  | some s => if s = "" then "unknown" else s

/-- Python slice `xs[-limit:]` for a non-negative int `limit`: `-0 == 0`, so
`limit = 0` yields `xs[0:] = xs`; for positive `limit` it yields the last
`min limit xs.length` elements. -/
def pySliceLast {α : Type} (xs : List α) (limit : Nat) : List α :=
  if limit = 0 then xs else xs.drop (xs.length - limit)

/-! ## cache.py — data classes -/

/-- `CachedLampState` dataclass of `src/services/cache.py`. -/
structure CachedLampState where
  is_on : Bool
  last_updated : DateTimeM
  session_id : Option String
  deriving DecidableEq, Repr

/-- `CachedActivity` dataclass of `src/services/cache.py`.  `session_id` is
declared `str` in the source but holds `None` when imported from database rows
with a NULL session, hence `Option String`.  `previous_state` is declared
`bool`; rows imported from the database carry the strings `"on"`/`"off"` (or
`None`) in that slot, and every consumer in the core only applies Python
truthiness to it, so the import converts by truthiness (see
`dashToCacheData`). -/
structure CachedActivity where
  id : String
  action : String
  timestamp : DateTimeM
  session_id : Option String
  previous_state : Bool
  user_agent : Option String
  ip_address : Option String
  deriving DecidableEq, Repr

/-- `CachedDailyStats` dataclass of `src/services/cache.py`; `date` is the
`day` number of the calendar date. -/
structure CachedDailyStats where
  date : Nat
  total_toggles : Nat
  on_count : Nat
  off_count : Nat
  unique_sessions : Nat
  total_on_duration_minutes : Nat
  deriving DecidableEq, Repr

/-- A `CachedDailyStats` with all counters zero, as created at the start of
`LampCacheService._update_daily_stats` for a fresh date, and as embedded as
the zeroed default in `get_dashboard_data`. -/
def zeroStats (d : Nat) : CachedDailyStats :=
  ⟨d, 0, 0, 0, 0, 0⟩

/-! ## cache.py — LampCacheService state -/

/-- State of `LampCacheService`: `daily_stats` is the dict keyed by
`date.isoformat()` (here: by `day`), `sessions` the Python set of session ids
(duplicate-free list). -/
structure LampCacheService where
  current_state : CachedLampState
  activities : List CachedActivity
  daily_stats : List (Nat × CachedDailyStats)
  sessions : List String
  lifetime_toggles : Nat
  cache_dirty : Bool
  deriving DecidableEq, Repr

/-- Dict lookup `d.get(key)` for a date-keyed table (keys are unique, as in a
Python dict). -/
def lookupDay {α : Type} : List (Nat × α) → Nat → Option α
  | [], _ => none
  | p :: t, d => if p.1 = d then some p.2 else lookupDay t d

/-- Dict assignment `d[key] = v`: replace the (unique) binding if present,
else append. -/
def setDay {α : Type} : List (Nat × α) → Nat → α → List (Nat × α)
  | [], d, v => [(d, v)]
  | p :: t, d, v => if p.1 = d then (d, v) :: t else p :: setDay t d v

/-- Python set insertion `self._sessions.add(x)`. -/
def sessionsAdd (s : List String) (x : String) : List String :=
  if x ∈ s then s else s ++ [x]

/-- `LampCacheService.__init__`: lamp off, empty history and statistics,
clean cache.  `now` is the `datetime.now()` taken in the constructor. -/
def initCache (now : DateTimeM) : LampCacheService :=
  { current_state := ⟨false, now, none⟩
    activities := []
    daily_stats := []
    sessions := []
    lifetime_toggles := 0
    cache_dirty := false }

/-- `LampCacheService.get_current_state`: returns a copy of the current
state (copying is identity in the pure model). -/
def LampCacheService.get_current_state (c : LampCacheService) : CachedLampState :=
  ⟨c.current_state.is_on, c.current_state.last_updated, c.current_state.session_id⟩

/-- `LampCacheService._update_daily_stats(timestamp, session_id, new_state)`:
adds the session to the all-time session set, creates today's zeroed entry if
missing, then increments `total_toggles` and `on_count`/`off_count` and sets
`unique_sessions` to the size of the **all-time** session set (the source
comment reads "simplified - just use total unique sessions").  Returns the
updated `(daily_stats, sessions)`. -/
def updateDailyStats (ds : List (Nat × CachedDailyStats)) (sessions : List String)
    (timestamp : DateTimeM) (session_id : String) (new_state : Bool) :
    List (Nat × CachedDailyStats) × List String :=
  let sessions := sessionsAdd sessions session_id
  let today := timestamp.day
  let stats := (lookupDay ds today).getD (zeroStats today)
  let stats := { stats with total_toggles := stats.total_toggles + 1 }
  let stats :=
    if new_state then { stats with on_count := stats.on_count + 1 }
    else { stats with off_count := stats.off_count + 1 }
  let stats := { stats with unique_sessions := sessions.length }
  (setDay ds today stats, sessions)

/-- `LampCacheService.toggle_lamp(session_id, user_agent, ip_address)`:
flips `is_on`, stamps the new state with `now`, appends the activity record
(trimming the history to the last 100), updates daily statistics, increments
the lifetime counter and marks the cache dirty.  Returns the `CachedLampState`
the method returns, together with the updated service state.  `now` is the
`datetime.now()` taken inside the method. -/
def LampCacheService.toggle_lamp (c : LampCacheService) (now : DateTimeM)
    (session_id : String) (user_agent : Option String) (ip_address : Option String) :
    CachedLampState × LampCacheService :=
  let previous_state := c.current_state.is_on
  let new_state := !previous_state
  let activity_id := "cache_" ++ toString now.epochMs ++ "_" ++ session_id.take 8
  let activity : CachedActivity :=
    ⟨activity_id, if new_state then "on" else "off", now, some session_id,
      previous_state, user_agent, ip_address⟩
  let acts := c.activities ++ [activity]
  let acts := if acts.length > 100 then acts.drop (acts.length - 100) else acts
  let dsSess := updateDailyStats c.daily_stats c.sessions now session_id new_state
  (⟨new_state, now, some session_id⟩,
    { current_state := ⟨new_state, now, some session_id⟩
      activities := acts
      daily_stats := dsSess.1
      sessions := dsSess.2
      lifetime_toggles := c.lifetime_toggles + 1
      cache_dirty := true })

/-- `LampCacheService.get_recent_activities(limit)`:
`list(reversed(self._activities[-limit:]))`. -/
def LampCacheService.get_recent_activities (c : LampCacheService) (limit : Nat) :
    List CachedActivity :=
  (pySliceLast c.activities limit).reverse

/-- `LampCacheService.get_daily_statistics(target_date)`; the
`date.today()` default of the source is supplied explicitly by callers. -/
def LampCacheService.get_daily_statistics (c : LampCacheService) (target_date : Nat) :
    Option CachedDailyStats :=
  lookupDay c.daily_stats target_date

/-- The dict returned by `LampCacheService.get_dashboard_data`.  The source
substitutes a zeroed stats dict when no entry exists for today; that default is
folded into the `today_stats` field here (`(lookup).getD (zeroStats today)`),
which consumers distinguish from a real entry exactly as the source does: by
`total_toggles > 0`. -/
structure CacheDashboard where
  current_state : CachedLampState
  today_stats : CachedDailyStats
  total_lifetime_toggles : Nat
  recent_activities : List CachedActivity
  source : String
  deriving DecidableEq, Repr

/-- `LampCacheService.get_dashboard_data`; `today` is `date.today()`. -/
def LampCacheService.get_dashboard_data (c : LampCacheService) (today : Nat) :
    CacheDashboard :=
  { current_state := c.get_current_state
    today_stats := (c.get_daily_statistics today).getD (zeroStats today)
    total_lifetime_toggles := c.lifetime_toggles
    recent_activities := c.get_recent_activities 5
    source := "cache" }

/-- `LampCacheService.is_cache_dirty`. -/
def LampCacheService.is_cache_dirty (c : LampCacheService) : Bool :=
  c.cache_dirty

/-- `LampCacheService.mark_cache_clean`. -/
def LampCacheService.mark_cache_clean (c : LampCacheService) : LampCacheService :=
  { c with cache_dirty := false }

/-- The `db_data` dict accepted by `LampCacheService.update_from_database`:
each key may be absent (`none`).  `today_stats` is `none` both when the key is
absent and when its value is falsy, matching `if 'today_stats' in db_data and
db_data['today_stats']`.  `recent_activities` entries have already been
converted by `CachedActivity.from_dict`. -/
structure DbSyncData where
  current_state : Option CachedLampState
  total_lifetime_toggles : Option Nat
  today_stats : Option CachedDailyStats
  recent_activities : Option (List CachedActivity)
  deriving DecidableEq, Repr

/-- `LampCacheService.update_from_database(db_data)`: overwrites current
state, lifetime counter, the stats entry keyed by the snapshot's date, and the
activity list, for whichever keys are present.  The dirty flag and the session
set are not touched. -/
def LampCacheService.update_from_database (c : LampCacheService) (d : DbSyncData) :
    LampCacheService :=
  let c := match d.current_state with
    | some s => { c with current_state := s }
    | none => c
  let c := match d.total_lifetime_toggles with
    | some n => { c with lifetime_toggles := n }
    | none => c
  let c := match d.today_stats with
    | some s => { c with daily_stats := setDay c.daily_stats s.date s }
    | none => c
  match d.recent_activities with
    | some l => { c with activities := l }
    | none => c

/-- `LampCacheService.reset_cache` ("for testing"): back to the constructor
state; note that it clears the dirty flag. -/
def LampCacheService.reset_cache (c : LampCacheService) (now : DateTimeM) :
    LampCacheService :=
  let _ := c
  initCache now

/-- Input of one cache-served toggle: the `datetime.now()` observed by the
call and the caller-supplied identifiers. -/
structure ToggleInput where
  now : DateTimeM
  session_id : String
  user_agent : Option String
  ip_address : Option String
  deriving DecidableEq, Repr

/-- A sequence of cache-served toggles, applied left to right. -/
def applyToggles (inputs : List ToggleInput) (c : LampCacheService) : LampCacheService :=
  inputs.foldl
    (fun c i => (c.toggle_lamp i.now i.session_id i.user_agent i.ip_address).2) c

/-! ## models.py — durable-store dataclasses and response models

The `created_at` / `updated_at` columns are never written or read by the core
and are omitted.  `CurrentLampState.last_changed` is `Optional` in the
dataclass but is always populated by `LampRepository.get_current_state`
(the row's `last_updated` column), so it is modelled as a plain field. -/

/-- `LampActivity` dataclass of `src/database/models.py`. -/
structure LampActivity where
  id : Int
  action : String
  timestamp : DateTimeM
  session_id : Option String
  user_agent : Option String
  ip_address : Option String
  previous_state : Option String
  deriving DecidableEq, Repr

/-- `LampStatistics` dataclass of `src/database/models.py`. -/
structure LampStatistics where
  id : Nat
  date : Nat
  total_toggles : Nat
  on_count : Nat
  off_count : Nat
  unique_sessions : Nat
  total_on_duration_minutes : Nat
  deriving DecidableEq, Repr

/-- `CurrentLampState` dataclass of `src/database/models.py`. -/
structure CurrentLampState where
  id : Nat
  is_on : Bool
  last_changed : DateTimeM
  last_session_id : Option String
  change_count : Nat
  deriving DecidableEq, Repr

/-- `CurrentLampStateResponse` pydantic model: only `is_on`, `last_changed`
and `change_count`; extra keyword arguments passed by callers are ignored by
pydantic. -/
structure CurrentLampStateResponse where
  is_on : Bool
  last_changed : DateTimeM
  change_count : Nat
  deriving DecidableEq, Repr

/-- `LampStatisticsResponse` pydantic model. -/
structure LampStatisticsResponse where
  id : Nat
  date : Nat
  total_toggles : Nat
  on_count : Nat
  off_count : Nat
  unique_sessions : Nat
  total_on_duration_minutes : Nat
  deriving DecidableEq, Repr

/-- `LampActivityResponse` pydantic model. -/
structure LampActivityResponse where
  id : Int
  action : String
  timestamp : DateTimeM
  session_id : Option String
  previous_state : Option String
  deriving DecidableEq, Repr

/-- `LampDashboardResponse` pydantic model. -/
structure LampDashboardResponse where
  current_state : CurrentLampStateResponse
  today_stats : Option LampStatisticsResponse
  recent_activities : List LampActivityResponse
  total_lifetime_toggles : Nat
  deriving DecidableEq, Repr

/-! ## repository.py — the durable store

`LampRepository` executes SQL against three tables; the tables are modelled
in-memory: `lamp_status` is the single row (`is_on`, `last_updated`,
`client_info`), `lamp_activities` a list of rows with serial ids appended in
insertion order, `lamp_statistics` a table keyed by date.  Activity rows are
inserted with `CURRENT_TIMESTAMP`, which is non-decreasing, so
`ORDER BY timestamp DESC` is modelled as reverse insertion order. -/

/-- A row of the `lamp_activities` table. -/
structure DbActivityRow where
  id : Nat
  action : String
  timestamp : DateTimeM
  session_id : Option String
  user_agent : Option String
  ip_address : Option String
  previous_state : Option String
  deriving DecidableEq, Repr

/-- A row of the `lamp_statistics` table (its `date` column is the key in
`LampDb.statistics`). -/
structure DbStatsRow where
  id : Nat
  total_toggles : Nat
  on_count : Nat
  off_count : Nat
  unique_sessions : Nat
  total_on_duration_minutes : Nat
  deriving DecidableEq, Repr

/-- The durable store's tables (the `lamp_status` singleton row assumed
created, as `get_current_state` ensures). -/
structure LampDb where
  is_on : Bool
  last_updated : DateTimeM
  client_info : Option String
  activities : List DbActivityRow
  statistics : List (Nat × DbStatsRow)
  next_activity_id : Nat
  next_stats_id : Nat
  deriving DecidableEq, Repr

/-- `LampRepository.get_current_state`: reads the singleton `lamp_status` row;
`change_count` is read as `0` ("We'll calculate this separately if needed"). -/
def LampRepository.get_current_state (db : LampDb) : CurrentLampState :=
  ⟨1, db.is_on, db.last_updated, db.client_info, 0⟩

/-- SQL `COUNT(DISTINCT session_id)` over a set of activity rows: distinct
non-NULL session ids. -/
def countDistinctSessions (rows : List DbActivityRow) : Nat :=
  ((rows.filterMap (fun r => r.session_id)).dedup).length

/-- `LampRepository._update_daily_stats(action, session_id)`: updates today's
`lamp_statistics` row, recomputing `unique_sessions` from the **day's**
activity rows (`WHERE DATE(timestamp) = today`); a fresh row starts at
`total_toggles = 1`, `unique_sessions = 1`.  The `session_id` argument is only
logged by the source. -/
def LampRepository.update_daily_stats (db : LampDb) (today : Nat) (action : String)
    (_session_id : String) : LampDb :=
  match lookupDay db.statistics today with
  | some s =>
      let unique :=
        countDistinctSessions (db.activities.filter (fun r => r.timestamp.day == today))
      let s := { s with
        total_toggles := s.total_toggles + 1
        on_count := s.on_count + (if action == "on" then 1 else 0)
        off_count := s.off_count + (if action == "off" then 1 else 0)
        unique_sessions := unique }
      { db with statistics := setDay db.statistics today s }
  | none =>
      let s : DbStatsRow :=
        ⟨db.next_stats_id, 1, if action == "on" then 1 else 0,
          if action == "off" then 1 else 0, 1, 0⟩
      { db with statistics := setDay db.statistics today s
                next_stats_id := db.next_stats_id + 1 }

/-- `LampRepository.toggle_lamp(session_id, user_agent, ip_address)`: reads
the current row, flips it (stamping `CURRENT_TIMESTAMP`, modelled by `now`),
inserts the activity row, updates today's statistics, and returns the re-read
state.  The inner `try/except` blocks around the activity insert and the stats
update only matter when those statements fail; this model is the store's
success path (the failing store is modelled at the callers via `DbConn` /
`SyncProbe`). -/
def LampRepository.toggle_lamp (db : LampDb) (now : DateTimeM)
    (session_id user_agent ip_address : Option String) : CurrentLampState × LampDb :=
  let current_state := LampRepository.get_current_state db
  let previous_state := if current_state.is_on then "on" else "off"
  let new_state := !current_state.is_on
  let new_action := if new_state then "on" else "off"
  let client_info :=
    "Session: " ++ pyOrUnknown session_id ++ ", IP: " ++ pyOrUnknown ip_address
  let db := { db with is_on := new_state, last_updated := now,
                      client_info := some client_info }
  let row : DbActivityRow :=
    ⟨db.next_activity_id, new_action, now, session_id, user_agent, ip_address,
      some previous_state⟩
  let db := { db with activities := db.activities ++ [row]
                      next_activity_id := db.next_activity_id + 1 }
  let db := LampRepository.update_daily_stats db now.day new_action (pyOrUnknown session_id)
  (LampRepository.get_current_state db, db)

/-- Row-to-dataclass conversion done in `LampRepository.get_recent_activities`. -/
def rowToLampActivity (r : DbActivityRow) : LampActivity :=
  ⟨(r.id : Int), r.action, r.timestamp, r.session_id, r.user_agent, r.ip_address,
    r.previous_state⟩

/-- `LampRepository.get_recent_activities(limit)`:
`ORDER BY timestamp DESC LIMIT limit` (newest first). -/
def LampRepository.get_recent_activities (db : LampDb) (limit : Nat) : List LampActivity :=
  (db.activities.reverse.take limit).map rowToLampActivity

/-- `LampRepository.get_daily_statistics(target_date)`; the `date.today()`
default is supplied explicitly by callers. -/
def LampRepository.get_daily_statistics (db : LampDb) (target_date : Nat) :
    Option LampStatistics :=
  (lookupDay db.statistics target_date).map (fun s =>
    ⟨s.id, target_date, s.total_toggles, s.on_count, s.off_count,
      s.unique_sessions, s.total_on_duration_minutes⟩)

/-- `LampRepository.get_total_lifetime_toggles`: `COUNT(*)` over
`lamp_activities`. -/
def LampRepository.get_total_lifetime_toggles (db : LampDb) : Nat :=
  db.activities.length

/-- `LampRepository.get_dashboard_data`; `today` is `date.today()`. -/
def LampRepository.get_dashboard_data (db : LampDb) (today : Nat) :
    LampDashboardResponse :=
  let current_state := LampRepository.get_current_state db
  let today_stats := LampRepository.get_daily_statistics db today
  let recent_activities := LampRepository.get_recent_activities db 5
  { current_state :=
      ⟨current_state.is_on, current_state.last_changed, current_state.change_count⟩
    today_stats := today_stats.map (fun s =>
      ⟨s.id, s.date, s.total_toggles, s.on_count, s.off_count, s.unique_sessions,
        s.total_on_duration_minutes⟩)
    recent_activities := recent_activities.map (fun a =>
      ⟨a.id, a.action, a.timestamp, a.session_id, a.previous_state⟩)
    total_lifetime_toggles := LampRepository.get_total_lifetime_toggles db }

/-! ## ha_repository.py — the high-availability facade

Each `HALampRepository` operation first calls `_get_db_repository()` and then
runs the store operation inside `try/except`.  The outcome of that pair is an
input here: `down` (no handle obtained), `raised` (the store call raised), or
`up db` (the store with tables `db` answers).  The `except Exception` handler
swallows the error and runs the cache fallback, which is straight-line pure
code — so the fallback branches below are total. -/

/-- Outcome of the store-handle probe plus store call of one facade
operation. -/
inductive DbConn
  | down
  | raised
  | up (db : LampDb)
  deriving Repr

/-- The operation's durable-store attempt failed: no handle, or the store
call raised. -/
def DbConn.failed : DbConn → Prop
  | .down => True
  | .raised => True
  | .up _ => False

/-- Fallback id conversion in `HALampRepository`:
`int(id.split('_')[1]) if '_' in id else hash(id)`.  For ids minted by the
cache (`cache_<ms>_<...>`) this recovers the millisecond number; `int(...)` on
a non-numeric segment (unreachable for ids produced by the modelled
operations) is modelled totally by defaulting to `0`, and Python's opaque
`hash` by the string hash. -/
def cacheActivityDbId (id : String) : Int :=
  if id.contains '_' then ((((id.splitOn "_").getD 1 "").toInt?).getD 0 : Int)
  else ((hash id).toNat : Int)

/-- Cache-activity to `LampActivity` conversion of the
`HALampRepository.get_recent_activities` fallback (`previous_state` rendered
`"on"`/`"off"`). -/
def cachedActivityToDb (a : CachedActivity) : LampActivity :=
  ⟨cacheActivityDbId a.id, a.action, a.timestamp, a.session_id, a.user_agent,
    a.ip_address, some (if a.previous_state then "on" else "off")⟩

/-- `HALampRepository.get_current_state`: store first (reconciling the cache
when `is_on` disagrees), cache fallback otherwise.  `today` is `date.today()`,
used by the fallback's `get_dashboard_data` call. -/
def HALampRepository.get_current_state (conn : DbConn) (c : LampCacheService)
    (today : Nat) : CurrentLampState × LampCacheService :=
  match conn with
  | .up db =>
      let db_state := LampRepository.get_current_state db
      let cache_state := c.get_current_state
      let c :=
        if cache_state.is_on != db_state.is_on then
          c.update_from_database
            ⟨some ⟨db_state.is_on, db_state.last_changed, db_state.last_session_id⟩,
              none, none, none⟩
        else c
      (db_state, c)
  | _ =>
      let cache_state := c.get_current_state
      let cache_data := c.get_dashboard_data today
      (⟨1, cache_state.is_on, cache_state.last_updated, cache_state.session_id,
          cache_data.total_lifetime_toggles⟩, c)

/-- `HALampRepository.toggle_lamp`: store first (then sync the cache's current
state), cache fallback otherwise; the fallback passes
`session_id or "unknown"` to the cache and reports the cache's lifetime
counter as `change_count`.  Returns the result, the cache state, and the store
connection after the call. -/
def HALampRepository.toggle_lamp (conn : DbConn) (c : LampCacheService)
    (now : DateTimeM) (session_id user_agent ip_address : Option String) :
    CurrentLampState × LampCacheService × DbConn :=
  match conn with
  | .up db =>
      let r := LampRepository.toggle_lamp db now session_id user_agent ip_address
      let db_state := r.1
      let c := c.update_from_database
        ⟨some ⟨db_state.is_on, db_state.last_changed, session_id⟩, none, none, none⟩
      (db_state, c, .up r.2)
  | _ =>
      let r := c.toggle_lamp now (pyOrUnknown session_id) user_agent ip_address
      let cache_state := r.1
      let c := r.2
      let cache_data := c.get_dashboard_data now.day
      (⟨1, cache_state.is_on, cache_state.last_updated, cache_state.session_id,
          cache_data.total_lifetime_toggles⟩, c, conn)

/-- `HALampRepository.get_recent_activities(limit)` with fallback. -/
def HALampRepository.get_recent_activities (conn : DbConn) (c : LampCacheService)
    (limit : Nat) : List LampActivity :=
  match conn with
  | .up db => LampRepository.get_recent_activities db limit
  | _ => (c.get_recent_activities limit).map cachedActivityToDb

/-- `HALampRepository.get_daily_statistics(target_date)` with fallback. -/
def HALampRepository.get_daily_statistics (conn : DbConn) (c : LampCacheService)
    (target_date : Nat) : Option LampStatistics :=
  match conn with
  | .up db => LampRepository.get_daily_statistics db target_date
  | _ => (c.get_daily_statistics target_date).map (fun s =>
      ⟨1, s.date, s.total_toggles, s.on_count, s.off_count, s.unique_sessions,
        s.total_on_duration_minutes⟩)

/-- Conversion of the cache dashboard dict to `LampDashboardResponse` done by
the `HALampRepository.get_dashboard_data` fallback: pydantic ignores the extra
`id` / `last_updated` kwargs; `today_stats` is kept only when
`total_toggles > 0`; `change_count` is the cache's lifetime counter. -/
def cacheDashboardToResponse (d : CacheDashboard) : LampDashboardResponse :=
  { current_state :=
      ⟨d.current_state.is_on, d.current_state.last_updated, d.total_lifetime_toggles⟩
    today_stats :=
      if d.today_stats.total_toggles > 0 then
        some ⟨1, d.today_stats.date, d.today_stats.total_toggles,
          d.today_stats.on_count, d.today_stats.off_count,
          d.today_stats.unique_sessions, d.today_stats.total_on_duration_minutes⟩
      else none
    recent_activities := d.recent_activities.map (fun a =>
      ⟨cacheActivityDbId a.id, a.action, a.timestamp, a.session_id,
        some (if a.previous_state then "on" else "off")⟩)
    total_lifetime_toggles := d.total_lifetime_toggles }

/-- `HALampRepository.get_dashboard_data` with fallback. -/
def HALampRepository.get_dashboard_data (conn : DbConn) (c : LampCacheService)
    (today : Nat) : LampDashboardResponse :=
  match conn with
  | .up db => LampRepository.get_dashboard_data db today
  | _ => cacheDashboardToResponse (c.get_dashboard_data today)

/-- Input of one facade toggle (`session_id` is `Optional[str]` at this
level). -/
structure HaToggleInput where
  now : DateTimeM
  session_id : Option String
  user_agent : Option String
  ip_address : Option String
  deriving DecidableEq, Repr

/-- Extract the store from a connection, keeping a default when the
connection is not `up` (never hit in the reachable-store runs below). -/
def connDb : DbConn → LampDb → LampDb
  | .up db, _ => db
  | _, db => db

/-- A sequence of facade toggles issued while the store stays reachable:
every call runs against `DbConn.up` of the current store state. -/
def haTogglesUp : List HaToggleInput → LampDb × LampCacheService → LampDb × LampCacheService
  | [], s => s
  | i :: rest, (db, c) =>
      let r := HALampRepository.toggle_lamp (DbConn.up db) c i.now i.session_id
        i.user_agent i.ip_address
      haTogglesUp rest (connDb r.2.2 db, r.2.1)

/-! ## sync.py — DatabaseSyncService

One iteration of `_sync_loop` runs `_perform_sync()` in a `try`: if it
returns normally the retry interval is reset to 5 and the loop sleeps
`_sync_interval` (30 s); if it raises, the loop sleeps
`min(_current_retry_interval, _max_retry_interval)` and then doubles the
interval (capped at 300).  Inside `_perform_sync`, a failed probe
(`_get_database_repository()` returning `None`) just records
`database_available = False` and **returns normally**; only exceptions from
the snapshot pull (`_sync_from_database`) or the dirty push
(`_sync_to_database`) propagate to the loop.  The store behaviour of one
iteration is the `SyncProbe` input. -/

/-- Scheduling state of `DatabaseSyncService` (entity data lives in the cache
and store). -/
structure DatabaseSyncService where
  db_available : Bool
  current_retry_interval : Nat
  last_sync_attempt : Option DateTimeM
  deriving DecidableEq, Repr

/-- `DatabaseSyncService._sync_interval` (30 seconds). -/
def syncInterval : Nat := 30

/-- `DatabaseSyncService._max_retry_interval` (300 seconds). -/
def maxRetryInterval : Nat := 300

/-- `DatabaseSyncService.__init__`: store assumed unavailable, retry interval
at its 5-second floor. -/
def initSyncService : DatabaseSyncService :=
  ⟨false, 5, none⟩

/-- Store behaviour during one sync iteration: the probe finds the store
unavailable, or available with dashboard `dash`, where `pullRaises` /
`pushRaises` tell whether the snapshot pull / dirty push would raise if
executed. -/
inductive SyncProbe
  | unavailable
  | available (dash : LampDashboardResponse) (pullRaises : Bool) (pushRaises : Bool)
  deriving Repr

/-- Result of `_perform_sync`: new scheduling state, new cache state, and
whether the call returned without raising. -/
structure SyncStepResult where
  svc : DatabaseSyncService
  cache : LampCacheService
  ok : Bool
  deriving Repr

/-- Conversion `_sync_from_database` applies to the store dashboard before
`update_from_database`: the snapshot's `session_id` is
`getattr(current_state, 'session_id', None) = None` (the response model has no
such attribute); `today_stats` / `recent_activities` keys are added only when
present / non-empty; imported activities keep `str(id)` and get
`previous_state` by truthiness (see `CachedActivity`). -/
def dashToCacheData (dash : LampDashboardResponse) : DbSyncData :=
  { current_state := some ⟨dash.current_state.is_on, dash.current_state.last_changed, none⟩
    total_lifetime_toggles := some dash.total_lifetime_toggles
    today_stats := dash.today_stats.map (fun s =>
      ⟨s.date, s.total_toggles, s.on_count, s.off_count, s.unique_sessions,
        s.total_on_duration_minutes⟩)
    recent_activities :=
      if dash.recent_activities.isEmpty then none
      else some (dash.recent_activities.map (fun a =>
        ⟨toString a.id, a.action, a.timestamp, a.session_id,
          (match a.previous_state with | none => false | some s => s != ""),
          none, none⟩)) }

/-- `DatabaseSyncService._perform_sync`: stamp the attempt time; on a failed
probe set `database_available := false` and return normally; on a successful
probe, pull the snapshot when transitioning from unavailable (an exception
there resets availability and propagates), then push when the cache is dirty
(`_sync_to_database` re-reads the store — which may raise — logs, and marks
the cache clean). -/
def DatabaseSyncService.perform_sync (svc : DatabaseSyncService)
    (c : LampCacheService) (probe : SyncProbe) (now : DateTimeM) : SyncStepResult :=
  let svc := { svc with last_sync_attempt := some now }
  match probe with
  | .unavailable => ⟨{ svc with db_available := false }, c, true⟩
  | .available dash pullRaises pushRaises =>
      let wasAvailable := svc.db_available
      let svc := { svc with db_available := true }
      if !wasAvailable && pullRaises then
        ⟨{ svc with db_available := false }, c, false⟩
      else
        let c := if !wasAvailable then c.update_from_database (dashToCacheData dash) else c
        if c.is_cache_dirty && pushRaises then
          ⟨{ svc with db_available := false }, c, false⟩
        else
          let c := if c.is_cache_dirty then c.mark_cache_clean else c
          ⟨svc, c, true⟩

/-- Result of one `_sync_loop` iteration: new states plus the `sleep_time` in
seconds the loop will wait before the next attempt. -/
structure SyncIterResult where
  svc : DatabaseSyncService
  cache : LampCacheService
  sleep_time : Nat
  deriving Repr

/-- One iteration of `DatabaseSyncService._sync_loop`: run `_perform_sync`;
on normal return reset the retry interval to 5 and sleep `_sync_interval`; on
an exception sleep `min(interval, max)` and double the interval capped at
`_max_retry_interval`. -/
def DatabaseSyncService.sync_loop_iter (svc : DatabaseSyncService)
    (c : LampCacheService) (probe : SyncProbe) (now : DateTimeM) : SyncIterResult :=
  let r := DatabaseSyncService.perform_sync svc c probe now
  if r.ok then
    ⟨{ r.svc with current_retry_interval := 5 }, r.cache, syncInterval⟩
  else
    ⟨{ r.svc with
        current_retry_interval := min (r.svc.current_retry_interval * 2) maxRetryInterval },
      r.cache, min r.svc.current_retry_interval maxRetryInterval⟩

/-! ## Derived definitions used by the verification -/

/-- The activity record constructed inside `LampCacheService.toggle_lamp`. -/
def toggleActivity (c : LampCacheService) (now : DateTimeM) (sid : String)
    (ua ip : Option String) : CachedActivity :=
  ⟨"cache_" ++ toString now.epochMs ++ "_" ++ sid.take 8,
    if !c.current_state.is_on then "on" else "off", now, some sid,
    c.current_state.is_on, ua, ip⟩

/-- Every statistics entry of the cache balances its counters and has seen at
least one session. -/
def statsInvariant (c : LampCacheService) : Prop :=
  ∀ p ∈ c.daily_stats,
    p.2.total_toggles = p.2.on_count + p.2.off_count ∧ 1 ≤ p.2.unique_sessions

/-- The cache has recorded an activity on date `d`. -/
def hasActivityOn (c : LampCacheService) (d : Nat) : Prop :=
  ∃ a ∈ c.activities, a.timestamp.day = d

instance (c : LampCacheService) : Decidable (statsInvariant c) :=
  inferInstanceAs (Decidable (∀ p ∈ c.daily_stats,
    p.2.total_toggles = p.2.on_count + p.2.off_count ∧ 1 ≤ p.2.unique_sessions))

instance (c : LampCacheService) (d : Nat) : Decidable (hasActivityOn c d) :=
  inferInstanceAs (Decidable (∃ a ∈ c.activities, a.timestamp.day = d))

/-- Cache-path bound: every entry's `unique_sessions` is at most the size of
the all-time session set, which in turn is at most the lifetime toggle
counter. -/
def sessionsBound (c : LampCacheService) : Prop :=
  (∀ p ∈ c.daily_stats, p.2.unique_sessions ≤ c.sessions.length) ∧
    c.sessions.length ≤ c.lifetime_toggles

/-- A database snapshot whose statistics entry is internally inconsistent
(`total_toggles = 5` but `on_count + off_count = 2`, `unique_sessions = 0`)
together with an activity row on the same date. -/
def badSnapshot : DbSyncData :=
  { current_state := none
    total_lifetime_toggles := none
    today_stats := some ⟨0, 5, 1, 1, 0, 0⟩
    recent_activities := some [⟨"1", "on", ⟨0, 10⟩, some "s1", false, none, none⟩] }

/-- Three toggles with distinct sessions, the third on a later calendar
day. -/
def crossDayTrace : List ToggleInput :=
  [⟨⟨0, 0⟩, "s1", none, none⟩, ⟨⟨0, 1⟩, "s2", none, none⟩, ⟨⟨1, 2⟩, "s3", none, none⟩]

/-! ## Helper lemmas about the dict / set models -/

theorem lookupDay_setDay_self {α : Type} (ds : List (Nat × α)) (d : Nat) (v : α) :
    lookupDay (setDay ds d v) d = some v := by
  induction ds with
  | nil => simp [setDay, lookupDay]
  | cons p t ih =>
    by_cases h : p.1 = d
    · simp [setDay, lookupDay, h]
    · simp [setDay, lookupDay, h, ih]

theorem lookupDay_mem {α : Type} {ds : List (Nat × α)} {d : Nat} {v : α}
    (h : lookupDay ds d = some v) : (d, v) ∈ ds := by
  induction ds with
  | nil => simp [lookupDay] at h
  | cons p t ih =>
    obtain ⟨a, b⟩ := p
    by_cases hp : a = d
    · simp [lookupDay, hp] at h
      rw [← hp, ← h]
      exact List.mem_cons_self _ _
    · simp [lookupDay, hp] at h
      exact List.mem_cons_of_mem _ (ih h)

theorem mem_setDay {α : Type} {ds : List (Nat × α)} {d : Nat} {v : α} {p : Nat × α}
    (hp : p ∈ setDay ds d v) : p = (d, v) ∨ p ∈ ds := by
  induction ds with
  | nil => simpa [setDay] using hp
  | cons q t ih =>
    by_cases h : q.1 = d
    · simp only [setDay, if_pos h, List.mem_cons] at hp
      rcases hp with h1 | h1
      · exact Or.inl h1
      · exact Or.inr (List.mem_cons_of_mem _ h1)
    · simp only [setDay, if_neg h, List.mem_cons] at hp
      rcases hp with h1 | h1
      · exact Or.inr (h1 ▸ List.mem_cons_self _ _)
      · rcases ih h1 with h2 | h2
        · exact Or.inl h2
        · exact Or.inr (List.mem_cons_of_mem _ h2)

theorem length_le_sessionsAdd (s : List String) (x : String) :
    s.length ≤ (sessionsAdd s x).length := by
  unfold sessionsAdd
  split
  · exact Nat.le_refl _
  · simp

theorem sessionsAdd_length_le (s : List String) (x : String) :
    (sessionsAdd s x).length ≤ s.length + 1 := by
  unfold sessionsAdd
  split
  · omega
  · simp

theorem one_le_sessionsAdd (s : List String) (x : String) :
    1 ≤ (sessionsAdd s x).length := by
  unfold sessionsAdd
  split
  · rename_i h
    exact Nat.succ_le_of_lt (List.length_pos.mpr (List.ne_nil_of_mem h))
  · simp

/-! ## Helper lemmas about `toggle_lamp` -/

theorem toggle_lamp_fst (c : LampCacheService) (now : DateTimeM) (sid : String)
    (ua ip : Option String) :
    (c.toggle_lamp now sid ua ip).1 = ⟨!c.current_state.is_on, now, some sid⟩ := rfl

theorem toggle_lamp_current_state (c : LampCacheService) (now : DateTimeM) (sid : String)
    (ua ip : Option String) :
    (c.toggle_lamp now sid ua ip).2.current_state = ⟨!c.current_state.is_on, now, some sid⟩ := rfl

theorem toggle_lamp_lifetime (c : LampCacheService) (now : DateTimeM) (sid : String)
    (ua ip : Option String) :
    (c.toggle_lamp now sid ua ip).2.lifetime_toggles = c.lifetime_toggles + 1 := rfl

theorem toggle_lamp_dirty (c : LampCacheService) (now : DateTimeM) (sid : String)
    (ua ip : Option String) :
    (c.toggle_lamp now sid ua ip).2.cache_dirty = true := rfl

theorem toggle_lamp_daily_stats (c : LampCacheService) (now : DateTimeM) (sid : String)
    (ua ip : Option String) :
    (c.toggle_lamp now sid ua ip).2.daily_stats =
      (updateDailyStats c.daily_stats c.sessions now sid (!c.current_state.is_on)).1 := rfl

theorem toggle_lamp_sessions (c : LampCacheService) (now : DateTimeM) (sid : String)
    (ua ip : Option String) :
    (c.toggle_lamp now sid ua ip).2.sessions =
      (updateDailyStats c.daily_stats c.sessions now sid (!c.current_state.is_on)).2 := rfl

theorem toggle_lamp_activities (c : LampCacheService) (now : DateTimeM) (sid : String)
    (ua ip : Option String) :
    (c.toggle_lamp now sid ua ip).2.activities =
      (c.activities ++ [toggleActivity c now sid ua ip]).drop
        (c.activities.length + 1 - 100) := by
  show (let acts := c.activities ++ [toggleActivity c now sid ua ip]
        if acts.length > 100 then acts.drop (acts.length - 100) else acts) = _
  simp only [List.length_append, List.length_cons, List.length_nil]
  by_cases h : c.activities.length + 1 > 100
  · rw [if_pos h]
  · rw [if_neg h]
    have h0 : c.activities.length + 1 - 100 = 0 := by omega
    rw [h0, List.drop_zero]

theorem toggle_lamp_acts_len (c : LampCacheService) (now : DateTimeM) (sid : String)
    (ua ip : Option String) :
    (c.toggle_lamp now sid ua ip).2.activities.length =
      min (c.activities.length + 1) 100 := by
  rw [toggle_lamp_activities, List.length_drop]
  simp only [List.length_append, List.length_cons, List.length_nil]
  omega

theorem updateDailyStats_lookup (ds : List (Nat × CachedDailyStats)) (sessions : List String)
    (ts : DateTimeM) (sid : String) (ns : Bool) :
    lookupDay (updateDailyStats ds sessions ts sid ns).1 ts.day =
      some (let s0 := (lookupDay ds ts.day).getD (zeroStats ts.day)
            let s1 := { s0 with total_toggles := s0.total_toggles + 1 }
            let s2 := if ns then { s1 with on_count := s1.on_count + 1 }
                      else { s1 with off_count := s1.off_count + 1 }
            { s2 with unique_sessions := (sessionsAdd sessions sid).length }) := by
  unfold updateDailyStats
  exact lookupDay_setDay_self _ _ _

theorem applyToggles_nil (c : LampCacheService) : applyToggles [] c = c := rfl

theorem applyToggles_cons (i : ToggleInput) (rest : List ToggleInput)
    (c : LampCacheService) :
    applyToggles (i :: rest) c =
      applyToggles rest (c.toggle_lamp i.now i.session_id i.user_agent i.ip_address).2 := rfl

theorem applyToggles_preserve {P : LampCacheService → Prop}
    (h : ∀ (c : LampCacheService) (i : ToggleInput),
      P c → P (c.toggle_lamp i.now i.session_id i.user_agent i.ip_address).2) :
    ∀ inputs c, P c → P (applyToggles inputs c) := by
  intro inputs
  induction inputs with
  | nil => intro c hc; exact hc
  | cons i rest ih => intro c hc; exact ih _ (h c i hc)

/-! ## Invariants of the cache statistics -/

theorem updateDailyStats_sessions (ds : List (Nat × CachedDailyStats))
    (s : List String) (ts : DateTimeM) (sid : String) (ns : Bool) :
    (updateDailyStats ds s ts sid ns).2 = sessionsAdd s sid := rfl

theorem statsInvariant_toggle (c : LampCacheService) (now : DateTimeM) (sid : String)
    (ua ip : Option String) (h : statsInvariant c) :
    statsInvariant (c.toggle_lamp now sid ua ip).2 := by
  intro p hp
  rw [toggle_lamp_daily_stats] at hp
  simp only [updateDailyStats] at hp
  rcases mem_setDay hp with h1 | h1
  · subst h1
    cases hlk : lookupDay c.daily_stats now.day with
    | none =>
      cases hb : !c.current_state.is_on <;>
        simp [hlk, hb, zeroStats, one_le_sessionsAdd]
    | some s =>
      have hs1 : s.total_toggles = s.on_count + s.off_count :=
        (h (now.day, s) (lookupDay_mem hlk)).1
      cases hb : !c.current_state.is_on <;>
        simp [hlk, hb, one_le_sessionsAdd] <;> omega
  · exact h p h1

theorem statsInvariant_applyToggles (inputs : List ToggleInput) (c : LampCacheService)
    (h : statsInvariant c) : statsInvariant (applyToggles inputs c) :=
  applyToggles_preserve
    (fun c i hc => statsInvariant_toggle c i.now i.session_id i.user_agent i.ip_address hc)
    inputs c h

theorem statsInvariant_init (t : DateTimeM) : statsInvariant (initCache t) := by
  intro p hp
  simp [initCache] at hp

theorem sessionsBound_toggle (c : LampCacheService) (now : DateTimeM) (sid : String)
    (ua ip : Option String) (h : sessionsBound c) :
    sessionsBound (c.toggle_lamp now sid ua ip).2 := by
  obtain ⟨h1, h2⟩ := h
  constructor
  · intro p hp
    rw [toggle_lamp_daily_stats] at hp
    rw [toggle_lamp_sessions, updateDailyStats_sessions]
    simp only [updateDailyStats] at hp
    rcases mem_setDay hp with he | he
    · subst he
      simp
    · exact le_trans (h1 p he) (length_le_sessionsAdd _ _)
  · rw [toggle_lamp_sessions, updateDailyStats_sessions, toggle_lamp_lifetime]
    have := sessionsAdd_length_le c.sessions sid
    omega

theorem sessionsBound_init (t : DateTimeM) : sessionsBound (initCache t) := by
  constructor
  · intro p hp
    simp [initCache] at hp
  · simp [initCache]

theorem sessionsBound_applyToggles (inputs : List ToggleInput) (c : LampCacheService)
    (h : sessionsBound c) : sessionsBound (applyToggles inputs c) :=
  applyToggles_preserve
    (fun c i hc => sessionsBound_toggle c i.now i.session_id i.user_agent i.ip_address hc)
    inputs c h

/-! ## Helper lemmas about snapshot application and the sync service -/

theorem update_from_database_dirty (c : LampCacheService) (d : DbSyncData) :
    (c.update_from_database d).cache_dirty = c.cache_dirty := by
  obtain ⟨cs, lt, ts, ra⟩ := d
  cases cs <;> cases lt <;> cases ts <;> cases ra <;> rfl

theorem update_from_database_sessions (c : LampCacheService) (d : DbSyncData) :
    (c.update_from_database d).sessions = c.sessions := by
  obtain ⟨cs, lt, ts, ra⟩ := d
  cases cs <;> cases lt <;> cases ts <;> cases ra <;> rfl

theorem update_from_database_current_state (c : LampCacheService) (d : DbSyncData)
    (s : CachedLampState) (h : d.current_state = some s) :
    (c.update_from_database d).current_state = s := by
  obtain ⟨cs, lt, ts, ra⟩ := d
  cases cs with
  | none => simp at h
  | some s0 =>
    simp at h
    subst h
    cases lt <;> cases ts <;> cases ra <;> rfl

theorem update_from_database_daily_stats (c : LampCacheService) (d : DbSyncData) :
    (c.update_from_database d).daily_stats =
      (match d.today_stats with
        | some s => setDay c.daily_stats s.date s
        | none => c.daily_stats) := by
  obtain ⟨cs, lt, ts, ra⟩ := d
  cases cs <;> cases lt <;> cases ts <;> cases ra <;> rfl

theorem mark_cache_clean_current_state (c : LampCacheService) :
    c.mark_cache_clean.current_state = c.current_state := rfl

theorem perform_sync_pull_current_state (svc : DatabaseSyncService)
    (c : LampCacheService) (dash : LampDashboardResponse) (pushR : Bool)
    (now : DateTimeM) (h : svc.db_available = false) :
    (DatabaseSyncService.perform_sync svc c (SyncProbe.available dash false pushR)
        now).cache.current_state =
      ⟨dash.current_state.is_on, dash.current_state.last_changed, none⟩ := by
  have hc1 : (c.update_from_database (dashToCacheData dash)).current_state =
      ⟨dash.current_state.is_on, dash.current_state.last_changed, none⟩ :=
    update_from_database_current_state _ _ _ rfl
  unfold DatabaseSyncService.perform_sync
  cases hd : (c.update_from_database (dashToCacheData dash)).is_cache_dirty <;>
    cases pushR <;>
      simp [h, hd, hc1, mark_cache_clean_current_state]

/-! ## Helper lemmas about bounded history -/

theorem applyToggles_acts_len (inputs : List ToggleInput) :
    ∀ c : LampCacheService, c.activities.length ≤ 100 →
      (applyToggles inputs c).activities.length =
        min (c.activities.length + inputs.length) 100 := by
  induction inputs with
  | nil => intro c h; rw [applyToggles_nil]; simp; omega
  | cons i rest ih =>
    intro c h
    rw [applyToggles_cons, ih _ (by rw [toggle_lamp_acts_len]; omega),
      toggle_lamp_acts_len]
    simp only [List.length_cons]
    omega

theorem get_recent_eq_take (c : LampCacheService) (limit : Nat) (h : 0 < limit) :
    c.get_recent_activities limit = c.activities.reverse.take limit := by
  unfold LampCacheService.get_recent_activities pySliceLast
  rw [if_neg (Nat.pos_iff_ne_zero.mp h)]
  have h1 : c.activities.drop (c.activities.length - limit) =
      c.activities.rtake limit := rfl
  rw [h1, List.rtake_eq_reverse_take_reverse, List.reverse_reverse]

/-! ## Helper lemmas about the durable store -/

theorem dbToggle_is_on (db : LampDb) (now : DateTimeM) (sid ua ip : Option String) :
    (LampRepository.toggle_lamp db now sid ua ip).2.is_on = !db.is_on := by
  unfold LampRepository.toggle_lamp LampRepository.update_daily_stats
  cases hlk : lookupDay db.statistics now.day <;>
    simp [hlk, LampRepository.get_current_state]

theorem dbToggle_acts_len (db : LampDb) (now : DateTimeM) (sid ua ip : Option String) :
    (LampRepository.toggle_lamp db now sid ua ip).2.activities.length =
      db.activities.length + 1 := by
  unfold LampRepository.toggle_lamp LampRepository.update_daily_stats
  cases hlk : lookupDay db.statistics now.day <;>
    simp [hlk, LampRepository.get_current_state]

/-! ## Helper lemmas about repeated facade toggles with the store up -/

theorem haTogglesUp_cons (i : HaToggleInput) (rest : List HaToggleInput)
    (db : LampDb) (c : LampCacheService) :
    haTogglesUp (i :: rest) (db, c) =
      haTogglesUp rest
        ((LampRepository.toggle_lamp db i.now i.session_id i.user_agent i.ip_address).2,
         (HALampRepository.toggle_lamp (DbConn.up db) c i.now i.session_id
            i.user_agent i.ip_address).2.1) := rfl

theorem haTogglesUp_store (inputs : List HaToggleInput) :
    ∀ (db : LampDb) (c : LampCacheService),
      (haTogglesUp inputs (db, c)).1.is_on =
        Bool.xor (decide (inputs.length % 2 = 1)) db.is_on ∧
      (haTogglesUp inputs (db, c)).1.activities.length =
        db.activities.length + inputs.length := by
  induction inputs with
  | nil => intro db c; simp [haTogglesUp]
  | cons i rest ih =>
    intro db c
    rw [haTogglesUp_cons]
    obtain ⟨h1, h2⟩ :=
      ih (LampRepository.toggle_lamp db i.now i.session_id i.user_agent i.ip_address).2
        (HALampRepository.toggle_lamp (DbConn.up db) c i.now i.session_id
          i.user_agent i.ip_address).2.1
    constructor
    · rw [h1, dbToggle_is_on]
      have hpar : ((rest.length + 1) % 2 = 1) ↔ ¬ (rest.length % 2 = 1) := by omega
      by_cases hp : rest.length % 2 = 1 <;>
        cases hdb : db.is_on <;>
          simp [List.length_cons, hp, hpar]
    · rw [h2, dbToggle_acts_len]
      simp only [List.length_cons]
      omega

/-! ## Claim theorems -/

/-- C2: for every cache state, `toggle_lamp(sessionId, userAgent, ipAddress)`
flips `is_on`, stamps it with the current time, appends exactly one activity
whose `previous_state` is the pre-call `is_on` and whose `action` is `"on"`
iff the new `is_on` is true (the history then being trimmed to the last 100),
increments today's `total_toggles` by 1 and `on_count` (new state on) or
`off_count` (otherwise) by 1, increments the lifetime toggle counter by 1, and
sets the dirty flag. -/
theorem cache_toggle_effects (c : LampCacheService) (now : DateTimeM) (sid : String)
    (ua ip : Option String) :
    ((c.toggle_lamp now sid ua ip).1.is_on = !c.current_state.is_on) ∧
    ((c.toggle_lamp now sid ua ip).2.current_state.is_on = !c.current_state.is_on) ∧
    ((c.toggle_lamp now sid ua ip).1.last_updated = now) ∧
    ((c.toggle_lamp now sid ua ip).2.current_state.last_updated = now) ∧
    (∃ a : CachedActivity,
      a.previous_state = c.current_state.is_on ∧
      a.action = (if !c.current_state.is_on then "on" else "off") ∧
      (a.action = "on" ↔ (!c.current_state.is_on) = true) ∧
      a.timestamp = now ∧ a.session_id = some sid ∧
      (c.toggle_lamp now sid ua ip).2.activities =
        (c.activities ++ [a]).drop (c.activities.length + 1 - 100)) ∧
    ((lookupDay (c.toggle_lamp now sid ua ip).2.daily_stats now.day).map
        (fun s => (s.total_toggles, s.on_count, s.off_count)) =
      some
        (((lookupDay c.daily_stats now.day).getD (zeroStats now.day)).total_toggles + 1,
          ((lookupDay c.daily_stats now.day).getD (zeroStats now.day)).on_count +
            (if !c.current_state.is_on then 1 else 0),
          ((lookupDay c.daily_stats now.day).getD (zeroStats now.day)).off_count +
            (if !c.current_state.is_on then 0 else 1))) ∧
    ((c.toggle_lamp now sid ua ip).2.lifetime_toggles = c.lifetime_toggles + 1) ∧
    ((c.toggle_lamp now sid ua ip).2.cache_dirty = true) := by
  refine ⟨rfl, rfl, rfl, rfl,
    ⟨toggleActivity c now sid ua ip, rfl, rfl, ?_, rfl, rfl,
      toggle_lamp_activities c now sid ua ip⟩, ?_, rfl, rfl⟩
  · cases hb : !c.current_state.is_on <;> simp [toggleActivity, hb]
  · rw [toggle_lamp_daily_stats, updateDailyStats_lookup]
    cases hb : !c.current_state.is_on <;> simp [hb]

/-- C10: `get_recent_activities(0)` returns the whole cached history (up to
the 100-item cap it is stored under), most-recent-first, not the empty list:
Python's `xs[-0:]` is `xs[0:]`. -/
theorem get_recent_activities_zero_returns_all (c : LampCacheService) :
    c.get_recent_activities 0 = c.activities.reverse ∧
    (c.get_recent_activities 0).length = c.activities.length := by
  refine ⟨rfl, ?_⟩
  rw [show c.get_recent_activities 0 = c.activities.reverse from rfl,
    List.length_reverse]

/-- C8: the cache keeps at most 100 activities, evicting oldest first: for any
positive `limit`, `get_recent_activities(limit)` is the most recent
`min limit count` activities most-recent-first (`reverse.take`); after `N`
toggles from a fresh cache the stored count is `min N 100`; in particular
after 150 appends `get_recent_activities(1000)` is exactly the 100 retained
activities, most-recent-first. -/
theorem bounded_history :
    (∀ (c : LampCacheService) (limit : Nat), 0 < limit →
      c.get_recent_activities limit = c.activities.reverse.take limit ∧
      (c.get_recent_activities limit).length = min limit c.activities.length) ∧
    (∀ (t : DateTimeM) (inputs : List ToggleInput),
      (applyToggles inputs (initCache t)).activities.length = min inputs.length 100) ∧
    (∀ (t : DateTimeM) (inputs : List ToggleInput), inputs.length = 150 →
      (applyToggles inputs (initCache t)).get_recent_activities 1000 =
        (applyToggles inputs (initCache t)).activities.reverse ∧
      ((applyToggles inputs (initCache t)).get_recent_activities 1000).length = 100) := by
  refine ⟨?_, ?_, ?_⟩
  · intro c limit h
    refine ⟨get_recent_eq_take c limit h, ?_⟩
    rw [get_recent_eq_take c limit h, List.length_take, List.length_reverse]
  · intro t inputs
    have h := applyToggles_acts_len inputs (initCache t) (by simp [initCache])
    simpa [initCache] using h
  · intro t inputs h150
    have hlen : (applyToggles inputs (initCache t)).activities.length = 100 := by
      rw [applyToggles_acts_len inputs (initCache t) (by simp [initCache])]
      simp [initCache, h150]
    have h1 : (applyToggles inputs (initCache t)).get_recent_activities 1000 =
        (applyToggles inputs (initCache t)).activities.reverse.take 1000 :=
      get_recent_eq_take _ 1000 (by omega)
    refine ⟨?_, ?_⟩
    · rw [h1]
      exact List.take_of_length_le (by rw [List.length_reverse, hlen]; omega)
    · rw [h1, List.length_take, List.length_reverse, hlen]
      omega

/-- Witness for C8: the general law at a concrete two-element history and the
150-append scenario at a concrete input list. -/
theorem bounded_history_witness :
    (0 < 2 ∧
      ((initCache ⟨0, 0⟩).toggle_lamp ⟨0, 1⟩ "s1" none none).2.get_recent_activities 2 =
        ((initCache ⟨0, 0⟩).toggle_lamp ⟨0, 1⟩ "s1" none none).2.activities.reverse.take 2) ∧
    ((List.replicate 150 (⟨⟨0, 1⟩, "s1", none, none⟩ : ToggleInput)).length = 150 ∧
      ((applyToggles (List.replicate 150 ⟨⟨0, 1⟩, "s1", none, none⟩)
          (initCache ⟨0, 0⟩)).get_recent_activities 1000).length = 100) :=
  ⟨⟨by decide, (bounded_history.1 _ 2 (by decide)).1⟩,
    ⟨by simp, (bounded_history.2.2 ⟨0, 0⟩ _ (by simp)).2⟩⟩

/-- C5 (amended): the dirty flag is false for a fresh cache, true after any
cache toggle (hence stays true across repeated dirty writes), false after
`mark_cache_clean`, untouched by `update_from_database`; but it is also
cleared by `reset_cache`, so "false only after `markClean()`" holds only up
to the test-only `reset_cache` operation. -/
theorem dirty_flag_lifecycle :
    (∀ t : DateTimeM, (initCache t).cache_dirty = false) ∧
    (∀ (c : LampCacheService) (now : DateTimeM) (sid : String) (ua ip : Option String),
      (c.toggle_lamp now sid ua ip).2.cache_dirty = true) ∧
    (∀ c : LampCacheService, c.mark_cache_clean.cache_dirty = false) ∧
    (∀ (c : LampCacheService) (d : DbSyncData),
      (c.update_from_database d).cache_dirty = c.cache_dirty) ∧
    (∀ (c : LampCacheService) (t : DateTimeM), (c.reset_cache t).cache_dirty = false) :=
  ⟨fun _ => rfl, fun _ _ _ _ _ => rfl, fun _ => rfl,
    fun c d => update_from_database_dirty c d, fun _ _ => rfl⟩

/-- C5 counterexample: a dirty cache is driven back to `dirty = false` by
`reset_cache`, an operation other than `mark_cache_clean` — refuting "becomes
false only after `markClean()`". -/
theorem dirty_cleared_without_mark_clean :
    ((initCache ⟨0, 0⟩).toggle_lamp ⟨0, 1⟩ "s1" none none).2.cache_dirty = true ∧
    (((initCache ⟨0, 0⟩).toggle_lamp ⟨0, 1⟩ "s1" none none).2.reset_cache
        ⟨0, 2⟩).cache_dirty = false :=
  ⟨rfl, rfl⟩

/-- C6 (amended): every statistics entry created by toggling satisfies
`total_toggles = on_count + off_count` and `unique_sessions ≥ 1`, and every
cache operation except `update_from_database` preserves this unconditionally;
`update_from_database` preserves it only when the imported snapshot's stats
entry itself satisfies it (absent entries included). -/
theorem stats_invariant_preserved :
    (∀ (t : DateTimeM) (inputs : List ToggleInput),
      statsInvariant (applyToggles inputs (initCache t))) ∧
    (∀ (c : LampCacheService) (now : DateTimeM) (sid : String) (ua ip : Option String),
      statsInvariant c → statsInvariant (c.toggle_lamp now sid ua ip).2) ∧
    (∀ c : LampCacheService, statsInvariant c → statsInvariant c.mark_cache_clean) ∧
    (∀ (c : LampCacheService) (t : DateTimeM), statsInvariant (c.reset_cache t)) ∧
    (∀ (c : LampCacheService) (d : DbSyncData), statsInvariant c →
      (∀ s, d.today_stats = some s →
        s.total_toggles = s.on_count + s.off_count ∧ 1 ≤ s.unique_sessions) →
      statsInvariant (c.update_from_database d)) := by
  refine ⟨?_, ?_, ?_, ?_, ?_⟩
  · intro t inputs
    exact statsInvariant_applyToggles inputs _ (statsInvariant_init t)
  · intro c now sid ua ip h
    exact statsInvariant_toggle c now sid ua ip h
  · intro c h p hp
    exact h p hp
  · intro c t p hp
    simp [LampCacheService.reset_cache, initCache] at hp
  · intro c d h hstats p hp
    rw [update_from_database_daily_stats] at hp
    cases hts : d.today_stats with
    | none =>
      rw [hts] at hp
      exact h p hp
    | some s =>
      rw [hts] at hp
      rcases mem_setDay hp with he | he
      · subst he
        exact hstats s hts
      · exact h p he

/-- Witness for C6: the preservation clauses applied at a fresh cache, at a
one-toggle state and at a balanced imported snapshot. -/
theorem stats_invariant_preserved_witness :
    statsInvariant ((initCache ⟨0, 0⟩).toggle_lamp ⟨0, 1⟩ "s1" none none).2 ∧
    statsInvariant (initCache ⟨0, 0⟩).mark_cache_clean ∧
    statsInvariant ((initCache ⟨0, 0⟩).update_from_database
      ⟨none, none, some ⟨0, 2, 1, 1, 1, 0⟩, none⟩) :=
  ⟨stats_invariant_preserved.2.1 _ ⟨0, 1⟩ "s1" none none (by decide),
    stats_invariant_preserved.2.2.1 _ (by decide),
    stats_invariant_preserved.2.2.2.2 _ _ (by decide)
      (fun s hs => by cases hs; exact ⟨by decide, by decide⟩)⟩

/-- C6 counterexample: `update_from_database` is a cache operation that does
not preserve the statistics invariant — applied to a fresh (invariant-
satisfying) cache it installs, for a date that then has recorded activity, an
entry with `total_toggles ≠ on_count + off_count` and `unique_sessions = 0`. -/
theorem stats_invariant_broken_by_snapshot :
    statsInvariant (initCache ⟨0, 0⟩) ∧
    hasActivityOn ((initCache ⟨0, 0⟩).update_from_database badSnapshot) 0 ∧
    ¬ statsInvariant ((initCache ⟨0, 0⟩).update_from_database badSnapshot) := by
  refine ⟨?_, ?_, ?_⟩ <;> decide

/-- C7 (amended): in toggle-only histories every statistics entry satisfies
`unique_sessions ≤ lifetime_toggles` (the all-time toggle counter); the
claimed per-day bound `unique_sessions ≤ total_toggles` is what fails when
sessions span several days (see the counterexample). -/
theorem unique_sessions_le_lifetime (t : DateTimeM) (inputs : List ToggleInput) :
    ∀ p ∈ (applyToggles inputs (initCache t)).daily_stats,
      p.2.unique_sessions ≤ (applyToggles inputs (initCache t)).lifetime_toggles := by
  intro p hp
  have hb := sessionsBound_applyToggles inputs (initCache t) (sessionsBound_init t)
  exact le_trans (hb.1 p hp) hb.2

/-- Witness for C7: the bound applied to the single entry of a one-toggle
history. -/
theorem unique_sessions_le_lifetime_witness :
    ((0 : Nat), (⟨0, 1, 1, 0, 1, 0⟩ : CachedDailyStats)).2.unique_sessions ≤
      (applyToggles [⟨⟨0, 1⟩, "s1", none, none⟩] (initCache ⟨0, 0⟩)).lifetime_toggles :=
  unique_sessions_le_lifetime ⟨0, 0⟩ [⟨⟨0, 1⟩, "s1", none, none⟩]
    ((0 : Nat), (⟨0, 1, 1, 0, 1, 0⟩ : CachedDailyStats)) (by decide)

/-- C7 counterexample: after `crossDayTrace`, day 1's entry has
`total_toggles = 1` but `unique_sessions = 3` (the all-time session set), so
`unique_sessions ≤ total_toggles` fails. -/
theorem unique_sessions_exceeds_daily_toggles :
    ((lookupDay (applyToggles crossDayTrace (initCache ⟨0, 0⟩)).daily_stats 1).map
      (fun s => (s.total_toggles, s.unique_sessions))) = some (1, 3) ∧
    ¬ ∀ p ∈ (applyToggles crossDayTrace (initCache ⟨0, 0⟩)).daily_stats,
        p.2.unique_sessions ≤ p.2.total_toggles := by
  constructor <;> decide

/-- C1: when the store handle cannot be obtained (`down`) or the store call
raises (`raised`), every `HALampRepository` operation returns the repetition
of the operation against the cache as a success — the fallback branch being
total, no error reaches the caller, and the result is the same for either
failure; in particular `toggle_lamp`'s returned `is_on` is the flip of the
cache's last known value (no store state is consulted). -/
theorem ha_fallback_absorbs_store_failure (conn : DbConn) (h : conn.failed)
    (c : LampCacheService) (today : Nat) (now : DateTimeM)
    (sid ua ip : Option String) (limit d : Nat) :
    (HALampRepository.get_current_state conn c today =
      (⟨1, c.get_current_state.is_on, c.get_current_state.last_updated,
          c.get_current_state.session_id,
          (c.get_dashboard_data today).total_lifetime_toggles⟩, c)) ∧
    ((HALampRepository.toggle_lamp conn c now sid ua ip).1.is_on =
      !c.current_state.is_on) ∧
    (HALampRepository.toggle_lamp conn c now sid ua ip =
      (⟨1, (c.toggle_lamp now (pyOrUnknown sid) ua ip).1.is_on,
          (c.toggle_lamp now (pyOrUnknown sid) ua ip).1.last_updated,
          (c.toggle_lamp now (pyOrUnknown sid) ua ip).1.session_id,
          ((c.toggle_lamp now (pyOrUnknown sid) ua ip).2.get_dashboard_data
              now.day).total_lifetime_toggles⟩,
        (c.toggle_lamp now (pyOrUnknown sid) ua ip).2, conn)) ∧
    (HALampRepository.get_recent_activities conn c limit =
      (c.get_recent_activities limit).map cachedActivityToDb) ∧
    (HALampRepository.get_daily_statistics conn c d =
      (c.get_daily_statistics d).map (fun s =>
        ⟨1, s.date, s.total_toggles, s.on_count, s.off_count, s.unique_sessions,
          s.total_on_duration_minutes⟩)) ∧
    (HALampRepository.get_dashboard_data conn c today =
      cacheDashboardToResponse (c.get_dashboard_data today)) := by
  cases conn with
  | up db => simp [DbConn.failed] at h
  | down => exact ⟨rfl, rfl, rfl, rfl, rfl, rfl⟩
  | raised => exact ⟨rfl, rfl, rfl, rfl, rfl, rfl⟩

/-- Witness for C1: a store-down toggle on a fresh cache still yields the
flipped cache state. -/
theorem ha_fallback_witness :
    (HALampRepository.toggle_lamp DbConn.down (initCache ⟨0, 0⟩) ⟨0, 1⟩
        (some "s1") none none).1.is_on =
      !(initCache ⟨0, 0⟩).current_state.is_on :=
  (ha_fallback_absorbs_store_failure DbConn.down True.intro (initCache ⟨0, 0⟩) 0
    ⟨0, 1⟩ (some "s1") none none 5 0).2.1

/-- C3 (amended): a failed probe does not trigger backoff — it sets
`database_available` to false, sleeps the steady 30-second `_sync_interval`,
and the retry interval is (re)set to 5; the exponential backoff (sleep
`min(current_retry_interval, 300)`, then double capped at 300) happens exactly
when `_perform_sync` raises, i.e. when the probe succeeds but the snapshot
pull on an unavailable→available transition, or the dirty-cache push, raises;
after any non-raising iteration the interval is back at its 5-second floor. -/
theorem sync_backoff_semantics :
    (∀ (svc : DatabaseSyncService) (c : LampCacheService) (now : DateTimeM),
      (DatabaseSyncService.sync_loop_iter svc c SyncProbe.unavailable
          now).svc.db_available = false ∧
      (DatabaseSyncService.sync_loop_iter svc c SyncProbe.unavailable
          now).sleep_time = syncInterval ∧
      (DatabaseSyncService.sync_loop_iter svc c SyncProbe.unavailable
          now).svc.current_retry_interval = 5) ∧
    (∀ (svc : DatabaseSyncService) (c : LampCacheService)
        (dash : LampDashboardResponse) (pushR : Bool) (now : DateTimeM),
      svc.db_available = false →
      (DatabaseSyncService.sync_loop_iter svc c
          (SyncProbe.available dash true pushR) now).svc.db_available = false ∧
      (DatabaseSyncService.sync_loop_iter svc c
          (SyncProbe.available dash true pushR) now).sleep_time =
        min svc.current_retry_interval maxRetryInterval ∧
      (DatabaseSyncService.sync_loop_iter svc c
          (SyncProbe.available dash true pushR) now).svc.current_retry_interval =
        min (svc.current_retry_interval * 2) maxRetryInterval) ∧
    (∀ (svc : DatabaseSyncService) (c : LampCacheService)
        (dash : LampDashboardResponse) (pullR : Bool) (now : DateTimeM),
      svc.db_available = true → c.is_cache_dirty = true →
      (DatabaseSyncService.sync_loop_iter svc c
          (SyncProbe.available dash pullR true) now).sleep_time =
        min svc.current_retry_interval maxRetryInterval ∧
      (DatabaseSyncService.sync_loop_iter svc c
          (SyncProbe.available dash pullR true) now).svc.current_retry_interval =
        min (svc.current_retry_interval * 2) maxRetryInterval) ∧
    (∀ (svc : DatabaseSyncService) (c : LampCacheService) (probe : SyncProbe)
        (now : DateTimeM),
      (DatabaseSyncService.sync_loop_iter svc c probe
          now).svc.current_retry_interval = 5 ∨
      (DatabaseSyncService.sync_loop_iter svc c probe
          now).svc.current_retry_interval =
        min (svc.current_retry_interval * 2) maxRetryInterval) := by
  refine ⟨?_, ?_, ?_, ?_⟩
  · intro svc c now
    exact ⟨rfl, rfl, rfl⟩
  · intro svc c dash pushR now h
    refine ⟨?_, ?_, ?_⟩ <;>
      simp [DatabaseSyncService.sync_loop_iter, DatabaseSyncService.perform_sync, h]
  · intro svc c dash pullR now h1 h2
    refine ⟨?_, ?_⟩ <;>
      simp [DatabaseSyncService.sync_loop_iter, DatabaseSyncService.perform_sync, h1, h2]
  · intro svc c probe now
    cases probe with
    | unavailable => exact Or.inl rfl
    | available dash pullR pushR =>
      cases hw : svc.db_available <;> cases pullR <;> cases pushR <;>
        cases hd : (c.update_from_database (dashToCacheData dash)).is_cache_dirty <;>
          cases hd2 : c.is_cache_dirty <;>
            simp [DatabaseSyncService.sync_loop_iter, DatabaseSyncService.perform_sync,
              hw, hd, hd2]

/-- Witness for C3: the backoff clauses applied at a concrete unavailable
service (pull raise) and at a concrete available-and-dirty service (push
raise). -/
theorem sync_backoff_semantics_witness :
    ((DatabaseSyncService.sync_loop_iter ⟨false, 5, none⟩ (initCache ⟨0, 0⟩)
        (SyncProbe.available ⟨⟨false, ⟨0, 0⟩, 0⟩, none, [], 0⟩ true false)
        ⟨0, 1⟩).svc.db_available = false ∧
      (DatabaseSyncService.sync_loop_iter ⟨false, 5, none⟩ (initCache ⟨0, 0⟩)
        (SyncProbe.available ⟨⟨false, ⟨0, 0⟩, 0⟩, none, [], 0⟩ true false)
        ⟨0, 1⟩).sleep_time =
        min (⟨false, 5, none⟩ : DatabaseSyncService).current_retry_interval
          maxRetryInterval ∧
      (DatabaseSyncService.sync_loop_iter ⟨false, 5, none⟩ (initCache ⟨0, 0⟩)
        (SyncProbe.available ⟨⟨false, ⟨0, 0⟩, 0⟩, none, [], 0⟩ true false)
        ⟨0, 1⟩).svc.current_retry_interval =
        min ((⟨false, 5, none⟩ : DatabaseSyncService).current_retry_interval * 2)
          maxRetryInterval) ∧
    ((DatabaseSyncService.sync_loop_iter ⟨true, 20, none⟩
        ((initCache ⟨0, 0⟩).toggle_lamp ⟨0, 1⟩ "s1" none none).2
        (SyncProbe.available ⟨⟨false, ⟨0, 0⟩, 0⟩, none, [], 0⟩ false true)
        ⟨0, 2⟩).sleep_time =
        min (⟨true, 20, none⟩ : DatabaseSyncService).current_retry_interval
          maxRetryInterval ∧
      (DatabaseSyncService.sync_loop_iter ⟨true, 20, none⟩
        ((initCache ⟨0, 0⟩).toggle_lamp ⟨0, 1⟩ "s1" none none).2
        (SyncProbe.available ⟨⟨false, ⟨0, 0⟩, 0⟩, none, [], 0⟩ false true)
        ⟨0, 2⟩).svc.current_retry_interval =
        min ((⟨true, 20, none⟩ : DatabaseSyncService).current_retry_interval * 2)
          maxRetryInterval) :=
  ⟨sync_backoff_semantics.2.1 ⟨false, 5, none⟩ (initCache ⟨0, 0⟩)
      ⟨⟨false, ⟨0, 0⟩, 0⟩, none, [], 0⟩ false ⟨0, 1⟩ rfl,
    sync_backoff_semantics.2.2.1 ⟨true, 20, none⟩
      ((initCache ⟨0, 0⟩).toggle_lamp ⟨0, 1⟩ "s1" none none).2
      ⟨⟨false, ⟨0, 0⟩, 0⟩, none, [], 0⟩ false ⟨0, 2⟩ rfl rfl⟩

/-- C3 counterexample: with the retry interval at its 5-second floor, a failed
probe makes the loop sleep 30 seconds — not the current retry interval — and
leaves the interval at 5 instead of doubling it to 10. -/
theorem probe_failure_sleeps_sync_interval :
    (DatabaseSyncService.sync_loop_iter initSyncService (initCache ⟨0, 0⟩)
        SyncProbe.unavailable ⟨0, 1⟩).sleep_time = 30 ∧
    (DatabaseSyncService.sync_loop_iter initSyncService (initCache ⟨0, 0⟩)
        SyncProbe.unavailable ⟨0, 1⟩).svc.current_retry_interval = 5 ∧
    (DatabaseSyncService.sync_loop_iter initSyncService (initCache ⟨0, 0⟩)
        SyncProbe.unavailable ⟨0, 1⟩).sleep_time ≠
      initSyncService.current_retry_interval ∧
    (DatabaseSyncService.sync_loop_iter initSyncService (initCache ⟨0, 0⟩)
        SyncProbe.unavailable ⟨0, 1⟩).svc.current_retry_interval ≠
      initSyncService.current_retry_interval * 2 := by
  refine ⟨rfl, rfl, ?_, ?_⟩ <;> decide

/-- C4: when the probe succeeds, the recorded `database_available` was false,
and the snapshot pull does not itself raise, `_perform_sync` applies the store
dashboard to the cache, so the cache's `get_current_state` afterwards carries
the store's `is_on` and timestamp at reconnect time rather than the cache's
pre-reconnect state (whether or not the subsequent dirty push raises). -/
theorem reconnection_applies_snapshot (svc : DatabaseSyncService)
    (c : LampCacheService) (dash : LampDashboardResponse) (pushR : Bool)
    (now : DateTimeM) (h : svc.db_available = false) :
    ((DatabaseSyncService.perform_sync svc c (SyncProbe.available dash false pushR)
        now).cache.get_current_state.is_on = dash.current_state.is_on) ∧
    ((DatabaseSyncService.perform_sync svc c (SyncProbe.available dash false pushR)
        now).cache.get_current_state.last_updated = dash.current_state.last_changed) ∧
    (c.get_current_state.is_on ≠ dash.current_state.is_on →
      (DatabaseSyncService.perform_sync svc c (SyncProbe.available dash false pushR)
          now).cache.get_current_state.is_on ≠ c.get_current_state.is_on) := by
  have hc := perform_sync_pull_current_state svc c dash pushR now h
  have h1 : (DatabaseSyncService.perform_sync svc c
      (SyncProbe.available dash false pushR) now).cache.get_current_state.is_on =
      dash.current_state.is_on := by
    simp only [LampCacheService.get_current_state, hc]
  have h2 : (DatabaseSyncService.perform_sync svc c
      (SyncProbe.available dash false pushR) now).cache.get_current_state.last_updated =
      dash.current_state.last_changed := by
    simp only [LampCacheService.get_current_state, hc]
  exact ⟨h1, h2, fun hne hEq => hne (hEq.symm.trans h1)⟩

/-- Witness for C4: a fresh (lamp-off) cache, a store dashboard whose lamp is
on; after the reconnect pull the cache reports the store's state. -/
theorem reconnection_applies_snapshot_witness :
    ((DatabaseSyncService.perform_sync ⟨false, 5, none⟩ (initCache ⟨0, 0⟩)
        (SyncProbe.available ⟨⟨true, ⟨2, 20⟩, 7⟩, none, [], 7⟩ false false)
        ⟨0, 5⟩).cache.get_current_state.is_on =
      (⟨⟨true, ⟨2, 20⟩, 7⟩, none, [], 7⟩ :
        LampDashboardResponse).current_state.is_on) ∧
    ((DatabaseSyncService.perform_sync ⟨false, 5, none⟩ (initCache ⟨0, 0⟩)
        (SyncProbe.available ⟨⟨true, ⟨2, 20⟩, 7⟩, none, [], 7⟩ false false)
        ⟨0, 5⟩).cache.get_current_state.last_updated =
      (⟨⟨true, ⟨2, 20⟩, 7⟩, none, [], 7⟩ :
        LampDashboardResponse).current_state.last_changed) ∧
    ((initCache ⟨0, 0⟩).get_current_state.is_on ≠
        (⟨⟨true, ⟨2, 20⟩, 7⟩, none, [], 7⟩ :
          LampDashboardResponse).current_state.is_on →
      (DatabaseSyncService.perform_sync ⟨false, 5, none⟩ (initCache ⟨0, 0⟩)
          (SyncProbe.available ⟨⟨true, ⟨2, 20⟩, 7⟩, none, [], 7⟩ false false)
          ⟨0, 5⟩).cache.get_current_state.is_on ≠
        (initCache ⟨0, 0⟩).get_current_state.is_on) :=
  reconnection_applies_snapshot ⟨false, 5, none⟩ (initCache ⟨0, 0⟩)
    ⟨⟨true, ⟨2, 20⟩, 7⟩, none, [], 7⟩ false ⟨0, 5⟩ rfl

/-- C9: for any initial store and cache state and any sequence of `N` facade
toggles issued while the store stays reachable, the facade's
`get_current_state` afterwards reports `is_on = (N odd) XOR initial_is_on`
(the store's initial value), and `get_recent_activities N` returns exactly `N`
activities. -/
theorem toggle_parity_store_reachable (db : LampDb) (c : LampCacheService)
    (inputs : List HaToggleInput) (today : Nat) :
    ((HALampRepository.get_current_state
        (DbConn.up (haTogglesUp inputs (db, c)).1)
        (haTogglesUp inputs (db, c)).2 today).1.is_on =
      Bool.xor (decide (inputs.length % 2 = 1)) db.is_on) ∧
    ((HALampRepository.get_recent_activities
        (DbConn.up (haTogglesUp inputs (db, c)).1)
        (haTogglesUp inputs (db, c)).2 inputs.length).length = inputs.length) := by
  obtain ⟨h1, h2⟩ := haTogglesUp_store inputs db c
  constructor
  · exact h1
  · show (((haTogglesUp inputs (db, c)).1.activities.reverse.take
        inputs.length).map rowToLampActivity).length = inputs.length
    rw [List.length_map, List.length_take, List.length_reverse, h2]
    omega
